import Mathlib

/-!
Shallow embedding of the sqlitestdb template lifecycle manager.

The development models, from the Go source:
  - the once package (src/unnamed/part_003): a type-safe map whose entries
    are initialized a single time (smap with a sync.Once per key);
  - sqlitestdb.go: Config, templateState, getOrCreateTemplate,
    ensureTemplate, createInstance, randomID, minVersion, and the create
    coordinator with the cleanup it registers.

Concurrency: Go's sync.Once serializes racing callers on one key (later
callers block inside once.Do until the first caller's function returns,
and the data store happens before once.Do returns). A concurrent history
of Set and Get calls is therefore modelled by its linearization: an
arbitrary finite sequence of atomic operations applied to the map state.

Effects (filesystem, database connections, PRAGMA, migration, VACUUM,
random bytes, test logging) are modelled by explicit state passing: the
filesystem is a predicate on paths, fallible external operations draw
their outcomes from an environment record, and each run also yields the
ordered list of effect events it performed.
-/

namespace Sqlitestdb

namespace once

/-- Model of the once package's entry type: the memoized result of one
initialization, a possibly-nil value pointer and a possibly-nil error. -/
structure entry (V E : Type) where
  data : Option V
  err : Option E
deriving Repr, DecidableEq

/-- Model of the once package's smap: the sync.Map of sync.Once objects is
abstracted by the per-key flag done (true when the key's once.Do has run),
the sync.Map of entries by the field data, and log records, in order, the
keys whose initialization function actually executed. -/
structure smap (K V E : Type) where
  done : K → Bool
  data : K → Option (entry V E)
  log : List K

/-- Model of NewMap: the empty smap, no key initialized. -/
def smap.empty {K V E : Type} : smap K V E :=
  ⟨fun _ => false, fun _ => none, []⟩

/-- Model of smap.Get: load the entry for the key; a missing entry
type-asserts to the zero value, giving the pair (nil, nil). -/
def smap.Get {K V E : Type} (sm : smap K V E) (k : K) : Option V × Option E :=
  match sm.data k with
  | some e => (e.data, e.err)
  | none => (none, none)

/-- Store of the initialization result for a key, marking its once done and
logging the execution, as the body of once.Do does in smap.Set. -/
def smap.store {K V E : Type} [DecidableEq K] (sm : smap K V E) (k : K)
    (e : entry V E) : smap K V E :=
  { done := fun q => if q = k then true else sm.done q
    data := fun q => if q = k then some e else sm.data q
    log := sm.log ++ [k] }

/-- Model of smap.Set: once.Do runs the function and stores its result only
if the key's once has not yet run; the call then returns Get of the key. -/
def smap.Set {K V E : Type} [DecidableEq K] (sm : smap K V E) (k : K)
    (f : Unit → Option V × Option E) : (Option V × Option E) × smap K V E :=
  if sm.done k then (sm.Get k, sm)
  else
    let r := f ()
    let sm' := sm.store k ⟨r.1, r.2⟩
    (sm'.Get k, sm')

/-- One atomic operation on the map, as issued by some caller: a Set call
carrying that caller's initialization function, or a diagnostic Get. -/
inductive MapOp (K V E : Type) where
  | set (k : K) (f : Unit → Option V × Option E)
  | get (k : K)

/-- Apply one operation to the map state, returning its result and the new
state. -/
def applyOp {K V E : Type} [DecidableEq K] (sm : smap K V E) :
    MapOp K V E → (Option V × Option E) × smap K V E
  | .set k f => sm.Set k f
  | .get k => (sm.Get k, sm)

/-- Run a linearized history of map operations, returning the final state. -/
def runOps {K V E : Type} [DecidableEq K] (sm : smap K V E) :
    List (MapOp K V E) → smap K V E
  | [] => sm
  | op :: rest => runOps (applyOp sm op).2 rest

/-- The results returned to the Set callers for one key, in order, over a
linearized history. -/
def setResults {K V E : Type} [DecidableEq K] (sm : smap K V E) (k : K) :
    List (MapOp K V E) → List (Option V × Option E)
  | [] => []
  | op :: rest =>
    match op with
    | .set q f =>
      let r := sm.Set q f
      if q = k then r.1 :: setResults r.2 k rest else setResults r.2 k rest
    | .get _ => setResults (applyOp sm op).2 k rest

/-- Well-formedness of a map state: a key whose once has run has a stored
entry (once.Do stores before returning). -/
def Inv {K V E : Type} (sm : smap K V E) : Prop :=
  ∀ q, sm.done q = true → sm.data q ≠ none

/-- Exact execution accounting for one key: either its once has never run
(no entry, no logged execution) or it has run exactly once. -/
def BuiltOnce {K V E : Type} [DecidableEq K] (sm : smap K V E) (k : K) : Prop :=
  (sm.done k = false ∧ sm.data k = none ∧ List.count k sm.log = 0) ∨
    (sm.done k = true ∧ List.count k sm.log = 1)

end once

/-- Concrete linearized history used to exercise the map theorems: two Set
callers racing on key a with different build functions, then a Get. -/
def opsC1 : List (once.MapOp String Nat String) :=
  [once.MapOp.set "a" (fun _ => (some 1, none)),
    once.MapOp.set "a" (fun _ => (some 2, none)),
    once.MapOp.get "a"]

/-- Model of a Go error value, tagged by the operation that produced it. -/
inductive Err where
  | connectErr (msg : String)
  | pragmaErr (msg : String)
  | migrateErr (msg : String)
  | hashErr (msg : String)
  | removeErr (msg : String)
  | queryErr (msg : String)
  | vacuumErr (msg : String)
  | randErr (msg : String)
  | closeErr (msg : String)
deriving Repr, DecidableEq

/-- Model of the filesystem: which paths currently hold a file. -/
def FS : Type := String → Bool

/-- Creation of a file at a path. -/
def FS.insert (fs : FS) (p : String) : FS :=
  fun q => if q = p then true else fs q

/-- Deletion of the file at a path. -/
def FS.erase (fs : FS) (p : String) : FS :=
  fun q => if q = p then false else fs q

/-- Observable effect events of a run, in order. -/
inductive Event where
  | statHit
  | connect
  | pragmaExclusive
  | migrate
  | removeTpl
  | queryVersion
  | vacuumInto (path : String)
  | logf (msg : String)
  | closeTplDB
  | connectInstance
  | closeInstance
  | removeInstance (path : String)
deriving Repr, DecidableEq

/-- Model of Config: the details needed to handle a SQLite database. -/
structure Config where
  Driver : String
  Database : String
deriving Repr, DecidableEq

/-- Model of Config.URI: "file:" followed by the database path. -/
def Config.URI (c : Config) : String :=
  "file:" ++ c.Database

/-- Model of filepath.Join for the one shape the source uses: a directory
joined with a single file name. -/
def filepathJoin (dir name : String) : String :=
  dir ++ "/" ++ name

/-- Model of os.TempDir. Its value is irrelevant to every claim; the source
only ever joins it with a file name. -/
def tmpDir : String := "/tmp"

/-- The template path for a migrator hash, as built in getOrCreateTemplate:
filepath.Join(os.TempDir(), "sqlitestdb_tpl_"+mhash+".sqlite"). -/
def tplPathOf (mhash : String) : String :=
  filepathJoin tmpDir ("sqlitestdb_tpl_" ++ mhash ++ ".sqlite")

/-- The instance path for a hash and a random id, as built in
createInstance: filepath.Join(os.TempDir(),
"sqlitestdb_tpl_"+template.hash+"_inst_"+id+".sqlite"). -/
def instPathOf (hash id : String) : String :=
  filepathJoin tmpDir ("sqlitestdb_tpl_" ++ hash ++ "_inst_" ++ id ++ ".sqlite")

/-- Model of templateState: the state of a single template. -/
structure templateState where
  config : Config
  hash : String
deriving Repr, DecidableEq

/-- Environment for one execution of ensureTemplate and for the cleanup in
getOrCreateTemplate: the outcome of each fallible external operation
(none means success). -/
structure ProvisionEnv where
  connectResult : Option Err
  pragmaResult : Option Err
  migrateResult : Option Err
  removeResult : Option Err
deriving Repr, DecidableEq

/-- Model of ensureTemplate: connect to the database file (a successful open
creates the file), set PRAGMA main.locking_mode=EXCLUSIVE, then run the
migrator; the first failing step's error is returned. -/
def ensureTemplate (env : ProvisionEnv) (fs : FS) (config : Config) :
    Option Err × FS × List Event :=
  match env.connectResult with
  | some e => (some e, fs, [Event.connect])
  | none =>
    let fs1 := fs.insert config.Database
    match env.pragmaResult with
    | some e => (some e, fs1, [Event.connect, Event.pragmaExclusive])
    | none =>
      match env.migrateResult with
      | some e => (some e, fs1, [Event.connect, Event.pragmaExclusive, Event.migrate])
      | none => (none, fs1, [Event.connect, Event.pragmaExclusive, Event.migrate])

/-- Model of os.Remove as invoked with its return value: on success the file
is gone; on failure the filesystem is unchanged. -/
def osRemove (res : Option Err) (fs : FS) (p : String) : FS :=
  match res with
  | some _ => fs
  | none => fs.erase p

/-- Model of the build closure passed to templates.Set in
getOrCreateTemplate: fix the template path from the hash, short-circuit if
a file already exists there, otherwise run ensureTemplate and, on its
error, call os.Remove on the template path (its return value is discarded
by the source) and return that same error. -/
def buildTemplate (env : ProvisionEnv) (fs : FS) (config : Config) (mhash : String) :
    (Option templateState × Option Err) × FS × List Event :=
  let tpl : templateState :=
    { config := { config with Database := tplPathOf mhash }, hash := mhash }
  if fs tpl.config.Database then
    ((some tpl, none), fs, [Event.statHit])
  else
    match ensureTemplate env fs tpl.config with
    | (none, fs1, evs) => ((some tpl, none), fs1, evs)
    | (some e, fs1, evs) =>
      ((none, some e), osRemove env.removeResult fs1 tpl.config.Database,
        evs ++ [Event.removeTpl])

/-- The process-wide templates map. -/
abbrev TplMap := once.smap String templateState Err

/-- Model of getOrCreateTemplate: hash the migrator, then run templates.Set
on the hash with the build closure; the smap.Set logic is inlined here
because the closure also acts on the filesystem. -/
def getOrCreateTemplate (env : ProvisionEnv) (hashResult : Except Err String)
    (config : Config) (sm : TplMap) (fs : FS) :
    (Option templateState × Option Err) × TplMap × FS × List Event :=
  match hashResult with
  | .error e => ((none, some e), sm, fs, [])
  | .ok mhash =>
    if sm.done mhash then (sm.Get mhash, sm, fs, [])
    else
      let r := buildTemplate env fs config mhash
      let sm1 := sm.store mhash ⟨r.1.1, r.1.2⟩
      (sm1.Get mhash, sm1, r.2.1, r.2.2)

/-- A semantic version, as compared by golang.org/x/mod/semver on the
well-formed version strings SQLite reports. -/
structure Version where
  major : Nat
  minor : Nat
  patch : Nat
deriving Repr, DecidableEq

/-- Model of minVersion = "v3.27.0", the version where VACUUM INTO was
added. -/
def minVersion : Version := ⟨3, 27, 0⟩

/-- Model of semver.Compare(a, b) < 0: lexicographic order on
major.minor.patch. -/
def semverLess (a b : Version) : Bool :=
  if a.major < b.major then true
  else if b.major < a.major then false
  else if a.minor < b.minor then true
  else if b.minor < a.minor then false
  else decide (a.patch < b.patch)

/-- Model of one hex digit of encoding/hex: "0123456789abcdef". -/
def hexDigit (n : Nat) : Char :=
  if n < 10 then Char.ofNat (48 + n) else Char.ofNat (87 + n)

/-- The two lowercase hex characters of one byte, high nibble first. -/
def hexByte (b : Nat) : List Char :=
  [hexDigit (b / 16), hexDigit (b % 16)]

/-- Model of hex.EncodeToString on a byte slice. -/
def hexEncode (bs : List Nat) : String :=
  ⟨(bs.map hexByte).flatten⟩

/-- The 4 bytes that crypto/rand.Read wrote, from the 32-bit draw they
encode, big-endian as they sit in the slice. -/
def bytesOfDraw (n : Nat) : List Nat :=
  [n / 16777216 % 256, n / 65536 % 256, n / 256 % 256, n % 256]

/-- Model of randomID: read 4 random bytes (one 32-bit draw) and hex-encode
them; a read error is returned as is. -/
def randomID (r : Except Err (Fin 4294967296)) : Except Err String :=
  match r with
  | .error e => .error e
  | .ok n => .ok (hexEncode (bytesOfDraw n.val))

/-- Environment for one execution of createInstance. -/
structure InstEnv where
  connResult : Option Err
  randDraw : Except Err (Fin 4294967296)
  vacuumResult : Option Err
deriving Repr

/-- Model of createInstance: take a connection from the template handle,
generate the random id, build the instance config from the template's
config with only the Database path replaced, and VACUUM INTO the new
path, which creates the instance file. -/
def createInstance (env : InstEnv) (fs : FS) (template : templateState) :
    Except Err Config × FS × List Event :=
  match env.connResult with
  | some e => (.error e, fs, [])
  | none =>
    match randomID env.randDraw with
    | .error e => (.error e, fs, [])
    | .ok id =>
      let testConfig : Config :=
        { template.config with Database := instPathOf template.hash id }
      match env.vacuumResult with
      | some e => (.error e, fs, [Event.vacuumInto testConfig.Database])
      | none =>
        (.ok testConfig, fs.insert testConfig.Database,
          [Event.vacuumInto testConfig.Database])

/-- An empty filesystem, used as a concrete starting state. -/
def fsNone : FS := fun _ => false

/-- A filesystem already holding the template file for hash noop, used as a
concrete warm-start state. -/
def fsWarm : FS := fun p => p == tplPathOf "noop"

/-- Concrete provisioning environment in which the migration step fails and
every other operation succeeds. -/
def envMigrateFails : ProvisionEnv :=
  { connectResult := none, pragmaResult := none,
    migrateResult := some (Err.migrateErr "bad sql"), removeResult := none }

/-- Concrete provisioning environment in which every operation succeeds. -/
def envAllOk : ProvisionEnv :=
  { connectResult := none, pragmaResult := none,
    migrateResult := none, removeResult := none }

/-- Concrete provisioning environment in which the PRAGMA step fails and the
cleanup os.Remove also fails. -/
def envC7 : ProvisionEnv :=
  { connectResult := none, pragmaResult := some (Err.pragmaErr "boom"),
    migrateResult := none, removeResult := some (Err.removeErr "denied") }

/-- Concrete template record for the noop migrator hash under driver
sqlite3. -/
def tplNoop : templateState := ⟨⟨"sqlite3", tplPathOf "noop"⟩, "noop"⟩

/-- Concrete instance environment: every operation succeeds and the random
draw is 0. -/
def instEnvOk : InstEnv := ⟨none, Except.ok 0, none⟩

/-- Concrete instance environment: every operation succeeds and the random
draw is 1. -/
def instEnvOne : InstEnv := ⟨none, Except.ok 1, none⟩

/-- The step of create at which t.Fatalf aborted the invocation. -/
inductive Stage where
  | resolveTemplate
  | nilTemplate
  | connectTemplate
  | queryVersion
  | versionGate
  | cloneInstance
  | closeTemplate
  | connectInstance
deriving Repr, DecidableEq

/-- Terminal state of one create invocation: fatal at some stage, or ready
with the instance config handed to the caller. -/
inductive CreateOutcome where
  | fatal (stage : Stage)
  | ready (inst : Config)
deriving Repr, DecidableEq

/-- Result of one create invocation: outcome, final templates map, final
filesystem, and the ordered effect events. -/
structure CreateRun where
  outcome : CreateOutcome
  sm : TplMap
  fs : FS
  events : List Event

/-- Environment for one create invocation. -/
structure CreateEnv where
  provEnv : ProvisionEnv
  hashResult : Except Err String
  tplConnectResult : Option Err
  versionResult : Except Err Version
  instEnv : InstEnv
  closeTplResult : Option Err
  instConnectResult : Option Err

/-- Model of create: resolve or build the template, connect to it, query
the SQLite version and reject versions below minVersion, clone an
instance, log its URI, close the template handle, and connect to the
instance. The nilTemplate stage marks the unreachable (nil, nil) answer
from the templates map, where the Go source would dereference nil. -/
def create (env : CreateEnv) (config : Config) (sm : TplMap) (fs : FS) : CreateRun :=
  match getOrCreateTemplate env.provEnv env.hashResult config sm fs with
  | ((_, some _), sm1, fs1, evs1) => ⟨.fatal .resolveTemplate, sm1, fs1, evs1⟩
  | ((none, none), sm1, fs1, evs1) => ⟨.fatal .nilTemplate, sm1, fs1, evs1⟩
  | ((some tpl, none), sm1, fs1, evs1) =>
    match env.tplConnectResult with
    | some _ => ⟨.fatal .connectTemplate, sm1, fs1, evs1⟩
    | none =>
      match env.versionResult with
      | .error _ => ⟨.fatal .queryVersion, sm1, fs1, evs1 ++ [Event.queryVersion]⟩
      | .ok v =>
        if semverLess v minVersion then
          ⟨.fatal .versionGate, sm1, fs1, evs1 ++ [Event.queryVersion]⟩
        else
          match createInstance env.instEnv fs1 tpl with
          | (.error _, fs2, evs2) =>
            ⟨.fatal .cloneInstance, sm1, fs2, evs1 ++ [Event.queryVersion] ++ evs2⟩
          | (.ok inst, fs2, evs2) =>
            let evs3 := evs1 ++ [Event.queryVersion] ++ evs2 ++
              [Event.logf ("sqlitestdb: " ++ inst.URI)]
            match env.closeTplResult with
            | some _ => ⟨.fatal .closeTemplate, sm1, fs2, evs3 ++ [Event.closeTplDB]⟩
            | none =>
              match env.instConnectResult with
              | some _ =>
                ⟨.fatal .connectInstance, sm1, fs2,
                  evs3 ++ [Event.closeTplDB, Event.connectInstance]⟩
              | none =>
                ⟨.ready inst, sm1, fs2,
                  evs3 ++ [Event.closeTplDB, Event.connectInstance]⟩

/-- Concrete create environment: everything succeeds but the template
connection reports SQLite 3.26.0, older than minVersion. -/
def envOld : CreateEnv :=
  { provEnv := envAllOk, hashResult := Except.ok "noop",
    tplConnectResult := none, versionResult := Except.ok ⟨3, 26, 0⟩,
    instEnv := instEnvOk, closeTplResult := none, instConnectResult := none }

/-- Concrete create environment: everything succeeds and the template
connection reports SQLite 3.45.1. -/
def envReady : CreateEnv :=
  { provEnv := envAllOk, hashResult := Except.ok "noop",
    tplConnectResult := none, versionResult := Except.ok ⟨3, 45, 1⟩,
    instEnv := instEnvOk, closeTplResult := none, instConnectResult := none }

/-- Result of the registered cleanup: the test's failure flag after the
cleanup ran, the filesystem, and the cleanup's events. -/
structure TeardownRun where
  failedAfter : Bool
  fs : FS
  events : List Event

/-- Model of the t.Cleanup closure registered by create: close the instance
connection (a close error is fatal, marking the test failed and aborting
the cleanup); if the test failed, keep the instance file; otherwise
os.Remove it (the source discards the remove's return value). -/
def teardown (closeResult : Option Err) (failed : Bool) (fs : FS)
    (inst : Config) : TeardownRun :=
  match closeResult with
  | some _ => ⟨true, fs, [Event.closeInstance]⟩
  | none =>
    if failed then ⟨true, fs, [Event.closeInstance]⟩
    else
      ⟨false, fs.erase inst.Database,
        [Event.closeInstance, Event.removeInstance inst.Database]⟩

end Sqlitestdb

namespace Sqlitestdb

namespace once

theorem Inv_empty {K V E : Type} : Inv (smap.empty : smap K V E) := by
  intro q h
  simp [smap.empty] at h

theorem BuiltOnce_empty {K V E : Type} [DecidableEq K] (k : K) :
    BuiltOnce (smap.empty : smap K V E) k := by
  left
  simp [smap.empty]

theorem runOps_cons {K V E : Type} [DecidableEq K] (sm : smap K V E)
    (op : MapOp K V E) (rest : List (MapOp K V E)) :
    runOps sm (op :: rest) = runOps (applyOp sm op).2 rest := rfl

theorem setResults_cons_set {K V E : Type} [DecidableEq K] (sm : smap K V E)
    (k q : K) (f : Unit → Option V × Option E) (rest : List (MapOp K V E)) :
    setResults sm k (MapOp.set q f :: rest) =
      if q = k then (sm.Set q f).1 :: setResults (sm.Set q f).2 k rest
      else setResults (sm.Set q f).2 k rest := rfl

theorem setResults_cons_get {K V E : Type} [DecidableEq K] (sm : smap K V E)
    (k q : K) (rest : List (MapOp K V E)) :
    setResults sm k (MapOp.get q :: rest) = setResults sm k rest := rfl

theorem Set_done_self {K V E : Type} [DecidableEq K] (sm : smap K V E) (k : K)
    (f : Unit → Option V × Option E) (hinv : Inv sm) :
    (sm.Set k f).2.done k = true ∧
      (sm.Set k f).2.data k = some ⟨(sm.Set k f).1.1, (sm.Set k f).1.2⟩ := by
  by_cases h : sm.done k = true
  · have hd := hinv k h
    rcases he : sm.data k with _ | e
    · exact absurd he hd
    · cases e with
      | mk d err => simp [smap.Set, h, smap.Get, he]
  · simp only [Bool.not_eq_true] at h
    simp [smap.Set, h, smap.store, smap.Get]

theorem applyOp_preserves {K V E : Type} [DecidableEq K] (sm : smap K V E)
    (op : MapOp K V E) (k : K) (h : sm.done k = true) :
    (applyOp sm op).2.done k = true ∧ (applyOp sm op).2.data k = sm.data k ∧
      List.count k (applyOp sm op).2.log = List.count k sm.log := by
  cases op with
  | get q => simp [applyOp, h]
  | set q f =>
    by_cases hq : sm.done q = true
    · simp [applyOp, smap.Set, hq, h]
    · simp only [Bool.not_eq_true] at hq
      have hqk : q ≠ k := fun hqe => by rw [hqe] at hq; rw [h] at hq; cases hq
      simp [applyOp, smap.Set, hq, smap.store, h, hqk, Ne.symm hqk,
        List.count_append, List.count_singleton]

theorem applyOp_Inv {K V E : Type} [DecidableEq K] (sm : smap K V E)
    (op : MapOp K V E) (hinv : Inv sm) : Inv (applyOp sm op).2 := by
  cases op with
  | get q => simpa [applyOp] using hinv
  | set q f =>
    by_cases hq : sm.done q = true
    · simpa [applyOp, smap.Set, hq] using hinv
    · simp only [Bool.not_eq_true] at hq
      intro p hp
      by_cases hpq : p = q
      · subst hpq
        simp [applyOp, smap.Set, hq, smap.store]
      · simp only [applyOp, smap.Set, hq, Bool.false_eq_true, if_false,
          smap.store, hpq, if_false] at hp ⊢
        exact hinv p hp

theorem applyOp_BuiltOnce {K V E : Type} [DecidableEq K] (sm : smap K V E)
    (op : MapOp K V E) (k : K) (h : BuiltOnce sm k) :
    BuiltOnce (applyOp sm op).2 k := by
  cases op with
  | get q => simpa [applyOp] using h
  | set q f =>
    by_cases hq : sm.done q = true
    · simpa [applyOp, smap.Set, hq] using h
    · simp only [Bool.not_eq_true] at hq
      by_cases hqk : q = k
      · subst hqk
        rcases h with ⟨h1, h2, h3⟩ | ⟨h1, h2⟩
        · right
          simp [applyOp, smap.Set, hq, smap.store, List.count_append,
            List.count_singleton, h3]
        · rw [h1] at hq; cases hq
      · rcases h with ⟨h1, h2, h3⟩ | ⟨h1, h2⟩
        · left
          simp [applyOp, smap.Set, hq, smap.store, hqk, Ne.symm hqk, h1, h2, h3,
            List.count_append, List.count_singleton]
        · right
          simp [applyOp, smap.Set, hq, smap.store, hqk, Ne.symm hqk, h1, h2,
            List.count_append, List.count_singleton]

theorem runOps_preserves {K V E : Type} [DecidableEq K]
    (ops : List (MapOp K V E)) (sm : smap K V E) (k : K) (h : sm.done k = true) :
    (runOps sm ops).done k = true ∧ (runOps sm ops).data k = sm.data k ∧
      List.count k (runOps sm ops).log = List.count k sm.log := by
  induction ops generalizing sm with
  | nil => exact ⟨h, rfl, rfl⟩
  | cons op rest ih =>
    obtain ⟨h1, h2, h3⟩ := applyOp_preserves sm op k h
    obtain ⟨g1, g2, g3⟩ := ih (applyOp sm op).2 h1
    exact ⟨g1, g2.trans h2, g3.trans h3⟩

theorem runOps_BuiltOnce {K V E : Type} [DecidableEq K]
    (ops : List (MapOp K V E)) (sm : smap K V E) (k : K) (h : BuiltOnce sm k) :
    BuiltOnce (runOps sm ops) k := by
  induction ops generalizing sm with
  | nil => exact h
  | cons op rest ih => exact ih (applyOp sm op).2 (applyOp_BuiltOnce sm op k h)

theorem setResults_agree {K V E : Type} [DecidableEq K]
    (ops : List (MapOp K V E)) (sm : smap K V E) (k : K) (hinv : Inv sm) :
    ∀ r ∈ setResults sm k ops, (runOps sm ops).data k = some ⟨r.1, r.2⟩ := by
  induction ops generalizing sm with
  | nil => intro r hr; simp [setResults] at hr
  | cons op rest ih =>
    intro r hr
    cases op with
    | get q =>
      rw [setResults_cons_get] at hr
      simpa [runOps_cons, applyOp] using ih sm hinv r hr
    | set q f =>
      by_cases hqk : q = k
      · subst hqk
        rw [setResults_cons_set, if_pos rfl, List.mem_cons] at hr
        obtain ⟨hdone, hdata⟩ := Set_done_self sm q f hinv
        have hinv2 : Inv (sm.Set q f).2 := applyOp_Inv sm (MapOp.set q f) hinv
        rcases hr with hr | hr
        · subst hr
          have hpres := (runOps_preserves rest (sm.Set q f).2 q hdone).2.1
          rw [runOps_cons]
          show (runOps (sm.Set q f).2 rest).data q = _
          rw [hpres, hdata]
        · simpa [runOps_cons, applyOp] using ih (sm.Set q f).2 hinv2 r hr
      · rw [setResults_cons_set, if_neg hqk] at hr
        have hinv2 : Inv (sm.Set q f).2 := applyOp_Inv sm (MapOp.set q f) hinv
        simpa [runOps_cons, applyOp] using ih (sm.Set q f).2 hinv2 r hr

end once

/-- C1: over any linearized history of Set and Get calls starting from the
fresh templates map, the build function for a key executes at most once
(at most one logged execution for the key); every Set call for that key
returns exactly the memoized entry for the key, so all callers observe
the one outcome of the single execution, value or error; and an entry for
the key exists only if exactly one execution produced it. -/
theorem C1_build_at_most_once {K V E : Type} [DecidableEq K]
    (ops : List (once.MapOp K V E)) (k : K) :
    List.count k (once.runOps once.smap.empty ops).log ≤ 1 ∧
      (∀ r ∈ once.setResults once.smap.empty k ops,
        (once.runOps once.smap.empty ops).data k = some ⟨r.1, r.2⟩) ∧
      ((once.runOps once.smap.empty ops).data k = none ∨
        List.count k (once.runOps once.smap.empty ops).log = 1) := by
  have hb := once.runOps_BuiltOnce ops once.smap.empty k (once.BuiltOnce_empty k)
  refine ⟨?_, once.setResults_agree ops once.smap.empty k once.Inv_empty, ?_⟩
  · rcases hb with ⟨_, _, h3⟩ | ⟨_, h2⟩ <;> omega
  · rcases hb with ⟨_, h2, _⟩ | ⟨_, h2⟩
    · left; exact h2
    · right; exact h2

/-- Witness for C1 on a concrete history: two Set callers racing on the
same key with different build functions, then a Get. -/
theorem C1_build_at_most_once_witness :
    List.count "a" (once.runOps once.smap.empty opsC1).log ≤ 1 ∧
      (∀ r ∈ once.setResults once.smap.empty "a" opsC1,
        (once.runOps once.smap.empty opsC1).data "a" = some ⟨r.1, r.2⟩) ∧
      ((once.runOps once.smap.empty opsC1).data "a" = none ∨
        List.count "a" (once.runOps once.smap.empty opsC1).log = 1) :=
  C1_build_at_most_once opsC1 "a"

/-- C8: Get on a key with no stored build outcome returns the zero entry,
no value and no error, and leaves the map state untouched, running and
blocking on no build function. -/
theorem C8_get_unbuilt {K V E : Type} [DecidableEq K] (sm : once.smap K V E)
    (k : K) (h : sm.data k = none) :
    sm.Get k = (none, none) ∧
      once.applyOp sm (once.MapOp.get k) = ((none, none), sm) := by
  constructor
  · simp [once.smap.Get, h]
  · simp [once.applyOp, once.smap.Get, h]

/-- Witness for C8 at the fresh map and the key k. -/
theorem C8_get_unbuilt_witness :
    (once.smap.empty : once.smap String Nat String).Get "k" = (none, none) ∧
      once.applyOp (once.smap.empty : once.smap String Nat String)
        (once.MapOp.get "k") = ((none, none), once.smap.empty) :=
  C8_get_unbuilt once.smap.empty "k" rfl

/-- C2: when no file sits at the template path and the build fails at any
step after the existence check (the remove itself succeeding), the build
closure returns the error with the template path holding no file, having
issued the remove before returning. -/
theorem C2_failed_build_removes_file (env : ProvisionEnv) (fs : FS)
    (config : Config) (mhash : String) (e : Err)
    (habsent : fs (tplPathOf mhash) = false)
    (hremove : env.removeResult = none)
    (hfail : (buildTemplate env fs config mhash).1 = (none, some e)) :
    (buildTemplate env fs config mhash).2.1 (tplPathOf mhash) = false ∧
      Event.removeTpl ∈ (buildTemplate env fs config mhash).2.2 := by
  rcases env with ⟨cr, pr, mr, rr⟩
  simp only at hremove
  subst hremove
  rcases cr with _ | e1 <;> rcases pr with _ | e2 <;> rcases mr with _ | e3 <;>
    simp_all [buildTemplate, ensureTemplate, osRemove, FS.insert, FS.erase]

/-- Witness for C2: a concrete run in which the migration fails on an empty
filesystem; the template path is clean afterwards. -/
theorem C2_failed_build_removes_file_witness :
    (buildTemplate envMigrateFails fsNone ⟨"sqlite3", ""⟩ "h").2.1
        (tplPathOf "h") = false ∧
      Event.removeTpl ∈ (buildTemplate envMigrateFails fsNone ⟨"sqlite3", ""⟩ "h").2.2 :=
  C2_failed_build_removes_file envMigrateFails fsNone ⟨"sqlite3", ""⟩ "h"
    (Err.migrateErr "bad sql") rfl rfl (by decide)

/-- C5: when a file already exists at the template path, the build closure
returns the template record at once with the filesystem untouched,
performing no connect, no locking-mode statement and no migration. -/
theorem C5_existing_file_short_circuits (env : ProvisionEnv) (fs : FS)
    (config : Config) (mhash : String)
    (hpresent : fs (tplPathOf mhash) = true) :
    buildTemplate env fs config mhash =
      ((some { config := { Driver := config.Driver, Database := tplPathOf mhash },
               hash := mhash }, none), fs, [Event.statHit]) ∧
      Event.connect ∉ (buildTemplate env fs config mhash).2.2 ∧
      Event.pragmaExclusive ∉ (buildTemplate env fs config mhash).2.2 ∧
      Event.migrate ∉ (buildTemplate env fs config mhash).2.2 := by
  have h : buildTemplate env fs config mhash =
      ((some { config := { Driver := config.Driver, Database := tplPathOf mhash },
               hash := mhash }, none), fs, [Event.statHit]) := by
    simp [buildTemplate, hpresent]
  refine ⟨h, ?_, ?_, ?_⟩ <;> rw [h] <;> simp

/-- Witness for C5: a warm start on a filesystem already holding the noop
template file. -/
theorem C5_existing_file_short_circuits_witness :
    buildTemplate envMigrateFails fsWarm ⟨"sqlite3", ""⟩ "noop" =
      ((some { config := { Driver := "sqlite3", Database := tplPathOf "noop" },
               hash := "noop" }, none), fsWarm, [Event.statHit]) ∧
      Event.connect ∉ (buildTemplate envMigrateFails fsWarm ⟨"sqlite3", ""⟩ "noop").2.2 ∧
      Event.pragmaExclusive ∉ (buildTemplate envMigrateFails fsWarm ⟨"sqlite3", ""⟩ "noop").2.2 ∧
      Event.migrate ∉ (buildTemplate envMigrateFails fsWarm ⟨"sqlite3", ""⟩ "noop").2.2 :=
  C5_existing_file_short_circuits envMigrateFails fsWarm ⟨"sqlite3", ""⟩ "noop"
    (by decide)

/-- C7 counterexample: a concrete failed build in which the cleanup
os.Remove itself fails. The file is indeed left behind, yet the caller
receives exactly the original PRAGMA error and nothing else: the source
discards os.Remove's return value, so the cleanup error is not surfaced,
against the claim. -/
theorem C7_counterexample :
    (buildTemplate envC7 fsNone ⟨"sqlite3", ""⟩ "h").1 =
        (none, some (Err.pragmaErr "boom")) ∧
      (buildTemplate envC7 fsNone ⟨"sqlite3", ""⟩ "h").2.1 (tplPathOf "h") = true ∧
      Err.pragmaErr "boom" ≠ Err.removeErr "denied" := by
  refine ⟨by decide, by decide, by decide⟩

/-- C7 amended: when provisioning fails, the caller receives the original
provisioning error unmasked, and the result it receives is the same
whatever the outcome of the cleanup os.Remove: the cleanup error is
discarded by the build closure, not surfaced. -/
theorem C7_cleanup_error_discarded (env : ProvisionEnv) (res : Option Err)
    (fs : FS) (config : Config) (mhash : String) (e : Err)
    (habsent : fs (tplPathOf mhash) = false)
    (hfail : (ensureTemplate env fs
      { config with Database := tplPathOf mhash }).1 = some e) :
    (buildTemplate env fs config mhash).1 = (none, some e) ∧
      (buildTemplate { env with removeResult := res } fs config mhash).1 =
        (buildTemplate env fs config mhash).1 := by
  rcases env with ⟨cr, pr, mr, rr⟩
  rcases cr with _ | e1 <;> rcases pr with _ | e2 <;> rcases mr with _ | e3 <;>
    simp_all [buildTemplate, ensureTemplate, osRemove, FS.insert, FS.erase]

/-- Witness for C7 amended: the concrete failed build of the counterexample
run with a failing remove; the caller sees only the PRAGMA error. -/
theorem C7_cleanup_error_discarded_witness :
    (buildTemplate ⟨none, some (Err.pragmaErr "boom"), none, none⟩ fsNone
        ⟨"sqlite3", ""⟩ "h").1 = (none, some (Err.pragmaErr "boom")) ∧
      (buildTemplate ⟨none, some (Err.pragmaErr "boom"), none,
          some (Err.removeErr "denied")⟩ fsNone ⟨"sqlite3", ""⟩ "h").1 =
        (buildTemplate ⟨none, some (Err.pragmaErr "boom"), none, none⟩ fsNone
          ⟨"sqlite3", ""⟩ "h").1 :=
  C7_cleanup_error_discarded ⟨none, some (Err.pragmaErr "boom"), none, none⟩
    (some (Err.removeErr "denied")) fsNone ⟨"sqlite3", ""⟩ "h"
    (Err.pragmaErr "boom") rfl (by decide)

theorem buildTemplate_ok (env : ProvisionEnv) (fs : FS) (config : Config)
    (mhash : String) (t : templateState) (oe : Option Err)
    (h : (buildTemplate env fs config mhash).1 = (some t, oe)) :
    t = { config := { Driver := config.Driver, Database := tplPathOf mhash },
          hash := mhash } ∧ oe = none := by
  rcases env with ⟨cr, pr, mr, rr⟩
  by_cases hf : fs (tplPathOf mhash) = true
  · simp_all [buildTemplate]
  · simp only [Bool.not_eq_true] at hf
    rcases cr with _ | e1 <;> rcases pr with _ | e2 <;> rcases mr with _ | e3 <;>
      simp_all [buildTemplate, ensureTemplate, osRemove, FS.insert, FS.erase]

/-- C9: from the fresh templates map, when a first caller's build for a
fingerprint succeeds, the memoized record carries the first caller's
driver and the fingerprint-derived path, and a second caller for the same
fingerprint with another config receives that very record: with a
different driver, it receives the first caller's driver, not its own. -/
theorem C9_first_builder_wins (env1 env2 : ProvisionEnv) (c1 c2 : Config)
    (mhash : String) (fs0 : FS) (tpl : templateState)
    (h1 : (getOrCreateTemplate env1 (Except.ok mhash) c1 once.smap.empty fs0).1 =
      (some tpl, none)) :
    (getOrCreateTemplate env2 (Except.ok mhash) c2
        (getOrCreateTemplate env1 (Except.ok mhash) c1 once.smap.empty fs0).2.1
        (getOrCreateTemplate env1 (Except.ok mhash) c1 once.smap.empty fs0).2.2.1).1 =
      (some tpl, none) ∧
      tpl.config.Driver = c1.Driver ∧
      tpl.config.Database = tplPathOf mhash ∧
      tpl.hash = mhash ∧
      (c1.Driver ≠ c2.Driver → tpl.config.Driver ≠ c2.Driver) := by
  rcases hr : buildTemplate env1 fs0 c1 mhash with ⟨⟨ot, oe⟩, fs1, evs⟩
  have hdone : (once.smap.empty : TplMap).done mhash = false := rfl
  simp only [getOrCreateTemplate, hdone, Bool.false_eq_true, if_false, hr] at h1 ⊢
  simp only [once.smap.Get, once.smap.store, if_pos rfl] at h1 ⊢
  obtain ⟨rfl, rfl⟩ : ot = some tpl ∧ oe = none := by
    simpa [Prod.ext_iff] using h1
  have hchar := buildTemplate_ok env1 fs0 c1 mhash tpl none (by rw [hr])
  obtain ⟨htpl, -⟩ := hchar
  subst htpl
  refine ⟨rfl, rfl, rfl, rfl, fun hne => ?_⟩
  simpa using hne

/-- Witness for C9: first caller with driver sqlite3 builds on an empty
filesystem; second caller with driver libsql receives the sqlite3
record. -/
theorem C9_first_builder_wins_witness :
    (getOrCreateTemplate envAllOk (Except.ok "noop") ⟨"libsql", ""⟩
        (getOrCreateTemplate envAllOk (Except.ok "noop") ⟨"sqlite3", ""⟩
          once.smap.empty fsNone).2.1
        (getOrCreateTemplate envAllOk (Except.ok "noop") ⟨"sqlite3", ""⟩
          once.smap.empty fsNone).2.2.1).1 =
      (some ⟨⟨"sqlite3", tplPathOf "noop"⟩, "noop"⟩, none) ∧
      (⟨⟨"sqlite3", tplPathOf "noop"⟩, "noop"⟩ : templateState).config.Driver =
        "sqlite3" ∧
      (⟨⟨"sqlite3", tplPathOf "noop"⟩, "noop"⟩ : templateState).config.Database =
        tplPathOf "noop" ∧
      (⟨⟨"sqlite3", tplPathOf "noop"⟩, "noop"⟩ : templateState).hash = "noop" ∧
      ("sqlite3" ≠ "libsql" →
        (⟨⟨"sqlite3", tplPathOf "noop"⟩, "noop"⟩ : templateState).config.Driver ≠
          "libsql") :=
  C9_first_builder_wins envAllOk envAllOk ⟨"sqlite3", ""⟩ ⟨"libsql", ""⟩ "noop"
    fsNone ⟨⟨"sqlite3", tplPathOf "noop"⟩, "noop"⟩ (by decide)

theorem createInstance_ok (env : InstEnv) (fs : FS) (tpl : templateState)
    (c : Config) (h : (createInstance env fs tpl).1 = Except.ok c) :
    ∃ n : Fin 4294967296, env.randDraw = Except.ok n ∧
      c = { Driver := tpl.config.Driver,
            Database := instPathOf tpl.hash (hexEncode (bytesOfDraw n.val)) } ∧
      (createInstance env fs tpl).2.1 = fs.insert c.Database := by
  rcases env with ⟨cr, rd, vr⟩
  rcases cr with _ | e1
  · rcases rd with e | n
    · simp_all [createInstance, randomID]
    · rcases vr with _ | e2
      · have hc : c = { Driver := tpl.config.Driver,
                        Database := instPathOf tpl.hash
                          (hexEncode (bytesOfDraw n.val)) } := by
          simp_all [createInstance, randomID]
        subst hc
        exact ⟨n, rfl, rfl, rfl⟩
      · simp_all [createInstance, randomID]
  · simp_all [createInstance]

/-- C10: a successful clone returns a config that copies the template's
driver, its only difference being the fingerprint-and-id instance path,
and its only filesystem effect is the new instance file: every other
path, the template file included, is untouched, and the template record
itself is taken by value and never written. -/
theorem C10_clone_differs_only_in_path (env : InstEnv) (fs : FS)
    (tpl : templateState) (c : Config)
    (h : (createInstance env fs tpl).1 = Except.ok c) :
    c.Driver = tpl.config.Driver ∧
      (∃ id, c.Database = instPathOf tpl.hash id) ∧
      (∀ p, p ≠ c.Database → (createInstance env fs tpl).2.1 p = fs p) := by
  obtain ⟨n, -, hc, hfs⟩ := createInstance_ok env fs tpl c h
  subst hc
  refine ⟨rfl, ⟨_, rfl⟩, fun p hp => ?_⟩
  rw [hfs]
  simp [FS.insert, hp]

/-- Witness for C10: a concrete clone of the noop template with draw 0. -/
theorem C10_clone_differs_only_in_path_witness :
    (⟨"sqlite3", instPathOf "noop" "00000000"⟩ : Config).Driver =
        tplNoop.config.Driver ∧
      (∃ id, (⟨"sqlite3", instPathOf "noop" "00000000"⟩ : Config).Database =
        instPathOf tplNoop.hash id) ∧
      (∀ p, p ≠ (⟨"sqlite3", instPathOf "noop" "00000000"⟩ : Config).Database →
        (createInstance instEnvOk fsNone tplNoop).2.1 p = fsNone p) :=
  C10_clone_differs_only_in_path instEnvOk fsNone tplNoop
    ⟨"sqlite3", instPathOf "noop" "00000000"⟩ rfl

theorem hexDigit_inj16 : ∀ a b : Fin 16, hexDigit a.val = hexDigit b.val → a = b := by
  decide

theorem hexDigit_inj (a b : Nat) (ha : a < 16) (hb : b < 16)
    (h : hexDigit a = hexDigit b) : a = b :=
  congrArg Fin.val (hexDigit_inj16 ⟨a, ha⟩ ⟨b, hb⟩ h)

theorem randomID_inj (m n : Nat) (hm : m < 4294967296) (hn : n < 4294967296)
    (h : hexEncode (bytesOfDraw m) = hexEncode (bytesOfDraw n)) : m = n := by
  have hd : (hexEncode (bytesOfDraw m)).data = (hexEncode (bytesOfDraw n)).data := by
    rw [h]
  simp only [hexEncode, bytesOfDraw, hexByte, List.map_cons, List.map_nil,
    List.flatten_cons, List.flatten_nil, List.cons_append, List.nil_append,
    List.append_nil, List.cons.injEq, and_true] at hd
  obtain ⟨h1, h2, h3, h4, h5, h6, h7, h8⟩ := hd
  have e1 := hexDigit_inj _ _ (by omega) (by omega) h1
  have e2 := hexDigit_inj _ _ (by omega) (by omega) h2
  have e3 := hexDigit_inj _ _ (by omega) (by omega) h3
  have e4 := hexDigit_inj _ _ (by omega) (by omega) h4
  have e5 := hexDigit_inj _ _ (by omega) (by omega) h5
  have e6 := hexDigit_inj _ _ (by omega) (by omega) h6
  have e7 := hexDigit_inj _ _ (by omega) (by omega) h7
  have e8 := hexDigit_inj _ _ (by omega) (by omega) h8
  omega

theorem instPathOf_id_inj (h id1 id2 : String)
    (heq : instPathOf h id1 = instPathOf h id2) : id1 = id2 := by
  obtain ⟨l1⟩ := id1
  obtain ⟨l2⟩ := id2
  have hd := congrArg String.data heq
  simp only [instPathOf, filepathJoin, String.data_append, List.append_assoc] at hd
  have h1 := List.append_cancel_left hd
  have h2 := List.append_cancel_left h1
  have h3 := List.append_cancel_left h2
  have h4 := List.append_cancel_left h3
  have h5 := List.append_cancel_left h4
  have h6 := List.append_cancel_right h5
  exact congrArg String.mk h6

/-- C6: every successful clone's instance path is built from the template's
fingerprint and the hex rendering of the fresh 32-bit random draw, the
rendered suffix is 8 hex characters (32 bits), and two clones of the same
template from distinct draws get distinct instance paths. -/
theorem C6_distinct_draws_distinct_paths (env1 env2 : InstEnv) (fs1 fs2 : FS)
    (tpl : templateState) (c1 c2 : Config) (n1 n2 : Fin 4294967296)
    (h1 : (createInstance env1 fs1 tpl).1 = Except.ok c1)
    (h2 : (createInstance env2 fs2 tpl).1 = Except.ok c2)
    (hd1 : env1.randDraw = Except.ok n1)
    (hd2 : env2.randDraw = Except.ok n2)
    (hne : n1 ≠ n2) :
    c1.Database = instPathOf tpl.hash (hexEncode (bytesOfDraw n1.val)) ∧
      (hexEncode (bytesOfDraw n1.val)).length = 8 ∧
      c1.Database ≠ c2.Database := by
  obtain ⟨m1, hm1, hc1, -⟩ := createInstance_ok env1 fs1 tpl c1 h1
  obtain ⟨m2, hm2, hc2, -⟩ := createInstance_ok env2 fs2 tpl c2 h2
  obtain rfl : n1 = m1 := by simpa using hd1.symm.trans hm1
  obtain rfl : n2 = m2 := by simpa using hd2.symm.trans hm2
  subst hc1
  subst hc2
  refine ⟨rfl, rfl, fun heq => hne ?_⟩
  have hid := instPathOf_id_inj tpl.hash _ _ heq
  exact Fin.ext (randomID_inj n1.val n2.val n1.isLt n2.isLt hid)

/-- Witness for C6: clones of the noop template from draws 0 and 1 get the
paths with suffixes 00000000 and 00000001. -/
theorem C6_distinct_draws_distinct_paths_witness :
    (⟨"sqlite3", instPathOf "noop" "00000000"⟩ : Config).Database =
        instPathOf tplNoop.hash (hexEncode (bytesOfDraw (0 : Fin 4294967296).val))
      ∧ (hexEncode (bytesOfDraw (0 : Fin 4294967296).val)).length = 8 ∧
      (⟨"sqlite3", instPathOf "noop" "00000000"⟩ : Config).Database ≠
        (⟨"sqlite3", instPathOf "noop" "00000001"⟩ : Config).Database :=
  C6_distinct_draws_distinct_paths instEnvOk instEnvOne fsNone fsNone tplNoop
    ⟨"sqlite3", instPathOf "noop" "00000000"⟩
    ⟨"sqlite3", instPathOf "noop" "00000001"⟩ 0 1 rfl rfl rfl rfl (by decide)

theorem buildTemplate_frame (env : ProvisionEnv) (fs : FS) (config : Config)
    (mhash : String) (p : String) (hp : p ≠ tplPathOf mhash) :
    (buildTemplate env fs config mhash).2.1 p = fs p := by
  rcases env with ⟨cr, pr, mr, rr⟩
  by_cases hf : fs (tplPathOf mhash) = true
  · simp_all [buildTemplate]
  · simp only [Bool.not_eq_true] at hf
    rcases cr with _ | e1 <;> rcases pr with _ | e2 <;> rcases mr with _ | e3 <;>
      rcases rr with _ | e4 <;>
        simp_all [buildTemplate, ensureTemplate, osRemove, FS.insert, FS.erase]

theorem buildTemplate_no_vacuum (env : ProvisionEnv) (fs : FS) (config : Config)
    (mhash : String) (p : String) :
    Event.vacuumInto p ∉ (buildTemplate env fs config mhash).2.2 := by
  rcases env with ⟨cr, pr, mr, rr⟩
  by_cases hf : fs (tplPathOf mhash) = true
  · simp_all [buildTemplate]
  · simp only [Bool.not_eq_true] at hf
    rcases cr with _ | e1 <;> rcases pr with _ | e2 <;> rcases mr with _ | e3 <;>
      simp_all [buildTemplate, ensureTemplate, osRemove]

theorem getOrCreateTemplate_frame (env : ProvisionEnv) (mhash : String)
    (config : Config) (sm : TplMap) (fs : FS) (p : String)
    (hp : p ≠ tplPathOf mhash) :
    (getOrCreateTemplate env (Except.ok mhash) config sm fs).2.2.1 p = fs p := by
  by_cases hd : sm.done mhash = true
  · simp [getOrCreateTemplate, hd]
  · simp only [Bool.not_eq_true] at hd
    simpa [getOrCreateTemplate, hd] using buildTemplate_frame env fs config mhash p hp

theorem getOrCreateTemplate_no_vacuum (env : ProvisionEnv) (mhash : String)
    (config : Config) (sm : TplMap) (fs : FS) (p : String) :
    Event.vacuumInto p ∉ (getOrCreateTemplate env (Except.ok mhash) config sm fs).2.2.2 := by
  by_cases hd : sm.done mhash = true
  · simp [getOrCreateTemplate, hd]
  · simp only [Bool.not_eq_true] at hd
    simpa [getOrCreateTemplate, hd] using buildTemplate_no_vacuum env fs config mhash p

/-- C4: when the template connection reports a version below minVersion,
create fails at the version gate: no VACUUM INTO ever appears in the
run's events (no clone is attempted) and the filesystem is unchanged at
every path but the template's own, so no instance file is created. -/
theorem C4_version_gate (env : CreateEnv) (config : Config) (sm : TplMap)
    (fs : FS) (mhash : String) (v : Version) (tpl : templateState)
    (hhash : env.hashResult = Except.ok mhash)
    (hres : (getOrCreateTemplate env.provEnv env.hashResult config sm fs).1 =
      (some tpl, none))
    (hconn : env.tplConnectResult = none)
    (hv : env.versionResult = Except.ok v)
    (hlt : semverLess v minVersion = true) :
    (create env config sm fs).outcome = CreateOutcome.fatal Stage.versionGate ∧
      (∀ p, Event.vacuumInto p ∉ (create env config sm fs).events) ∧
      (∀ p, p ≠ tplPathOf mhash → (create env config sm fs).fs p = fs p) := by
  rw [hhash] at hres
  rcases hg : getOrCreateTemplate env.provEnv (Except.ok mhash) config sm fs with
    ⟨⟨ot, oe⟩, sm1, fs1, evs1⟩
  rw [hg] at hres
  obtain ⟨rfl, rfl⟩ : ot = some tpl ∧ oe = none := by simpa [Prod.ext_iff] using hres
  have hcreate : create env config sm fs =
      ⟨CreateOutcome.fatal Stage.versionGate, sm1, fs1,
        evs1 ++ [Event.queryVersion]⟩ := by
    unfold create
    rw [hhash, hg, hconn, hv]
    simp [hlt]
  rw [hcreate]
  refine ⟨rfl, fun p => ?_, fun p hp => ?_⟩
  · have hnov := getOrCreateTemplate_no_vacuum env.provEnv mhash config sm fs p
    rw [hg] at hnov
    intro hmem
    rw [List.mem_append] at hmem
    rcases hmem with hmem | hmem
    · exact hnov hmem
    · simp at hmem
  · have hfr := getOrCreateTemplate_frame env.provEnv mhash config sm fs p hp
    rw [hg] at hfr
    exact hfr

/-- Witness for C4: a full run in which the template builds, but the
reported version is 3.26.0. -/
theorem C4_version_gate_witness :
    (create envOld ⟨"sqlite3", ""⟩ once.smap.empty fsNone).outcome =
        CreateOutcome.fatal Stage.versionGate ∧
      (∀ p, Event.vacuumInto p ∉
        (create envOld ⟨"sqlite3", ""⟩ once.smap.empty fsNone).events) ∧
      (∀ p, p ≠ tplPathOf "noop" →
        (create envOld ⟨"sqlite3", ""⟩ once.smap.empty fsNone).fs p = fsNone p) :=
  C4_version_gate envOld ⟨"sqlite3", ""⟩ once.smap.empty fsNone "noop" ⟨3, 26, 0⟩
    tplNoop rfl (by decide) rfl rfl (by decide)

theorem create_ready_spec (env : CreateEnv) (config : Config) (sm : TplMap)
    (fs : FS) (inst : Config)
    (h : (create env config sm fs).outcome = CreateOutcome.ready inst) :
    (create env config sm fs).fs inst.Database = true ∧
      Event.logf ("sqlitestdb: " ++ inst.URI) ∈ (create env config sm fs).events := by
  unfold create at h ⊢
  rcases hg : getOrCreateTemplate env.provEnv env.hashResult config sm fs with
    ⟨⟨ot, oe⟩, sm1, fs1, evs1⟩
  rw [hg] at h
  rcases ot with _ | tpl <;> rcases oe with _ | e
  · simp at h
  · simp at h
  · dsimp only at h ⊢
    rcases hc : env.tplConnectResult with _ | e1 <;> rw [hc] at h <;>
      dsimp only at h ⊢
    · rcases hv : env.versionResult with e2 | v <;> rw [hv] at h <;>
        dsimp only at h ⊢
      · simp at h
      · rcases hsem : semverLess v minVersion
        · rw [hsem] at h
          simp only [Bool.false_eq_true, if_false] at h ⊢
          rcases hci : createInstance env.instEnv fs1 tpl with ⟨rc, fs2, evs2⟩
          rw [hci] at h
          rcases rc with e3 | instc
          · simp at h
          · dsimp only at h ⊢
            rcases hcl : env.closeTplResult with _ | e4 <;> rw [hcl] at h <;>
              dsimp only at h ⊢
            · rcases hic : env.instConnectResult with _ | e5 <;> rw [hic] at h <;>
                dsimp only at h ⊢
              · obtain rfl : instc = inst := by simpa using h
                obtain ⟨n, -, -, hfs2⟩ :=
                  createInstance_ok env.instEnv fs1 tpl instc (by rw [hci])
                rw [hci] at hfs2
                have hins : fs2 = fs1.insert instc.Database := hfs2
                refine ⟨?_, ?_⟩
                · rw [hins]
                  simp [FS.insert]
                · simp [List.mem_append]
              · simp at h
            · simp at h
        · simp [hsem] at h
    · simp at h
  · simp at h

/-- C3: for a create run that reached Ready, the instance URI has been
reported via the test log, and the registered cleanup always closes the
instance connection and deletes the instance file exactly when the test
did not fail (a close failure itself marks the test failed): on a failed
test the instance file remains on the filesystem. -/
theorem C3_teardown_policy (env : CreateEnv) (config : Config) (sm : TplMap)
    (fs : FS) (inst : Config) (closeResult : Option Err) (failed : Bool)
    (h : (create env config sm fs).outcome = CreateOutcome.ready inst) :
    Event.logf ("sqlitestdb: " ++ inst.URI) ∈ (create env config sm fs).events ∧
      Event.closeInstance ∈
        (teardown closeResult failed (create env config sm fs).fs inst).events ∧
      ((teardown closeResult failed (create env config sm fs).fs inst).fs
          inst.Database = false ↔
        (teardown closeResult failed (create env config sm fs).fs inst).failedAfter
          = false) ∧
      ((teardown closeResult failed (create env config sm fs).fs inst).failedAfter
          = true →
        (teardown closeResult failed (create env config sm fs).fs inst).fs
          inst.Database = true) := by
  obtain ⟨hfile, hlog⟩ := create_ready_spec env config sm fs inst h
  refine ⟨hlog, ?_, ?_, ?_⟩ <;>
    rcases closeResult with _ | e <;> rcases failed <;>
      simp_all [teardown, FS.erase]

/-- Witness for C3: a full successful run followed by the cleanup of a
passing test. -/
theorem C3_teardown_policy_witness :
    Event.logf ("sqlitestdb: " ++
        (⟨"sqlite3", instPathOf "noop" "00000000"⟩ : Config).URI) ∈
      (create envReady ⟨"sqlite3", ""⟩ once.smap.empty fsNone).events ∧
      Event.closeInstance ∈
        (teardown none false (create envReady ⟨"sqlite3", ""⟩ once.smap.empty fsNone).fs
          ⟨"sqlite3", instPathOf "noop" "00000000"⟩).events ∧
      ((teardown none false (create envReady ⟨"sqlite3", ""⟩ once.smap.empty fsNone).fs
          ⟨"sqlite3", instPathOf "noop" "00000000"⟩).fs
          (⟨"sqlite3", instPathOf "noop" "00000000"⟩ : Config).Database = false ↔
        (teardown none false (create envReady ⟨"sqlite3", ""⟩ once.smap.empty fsNone).fs
          ⟨"sqlite3", instPathOf "noop" "00000000"⟩).failedAfter = false) ∧
      ((teardown none false (create envReady ⟨"sqlite3", ""⟩ once.smap.empty fsNone).fs
          ⟨"sqlite3", instPathOf "noop" "00000000"⟩).failedAfter = true →
        (teardown none false (create envReady ⟨"sqlite3", ""⟩ once.smap.empty fsNone).fs
          ⟨"sqlite3", instPathOf "noop" "00000000"⟩).fs
          (⟨"sqlite3", instPathOf "noop" "00000000"⟩ : Config).Database = true) :=
  C3_teardown_policy envReady ⟨"sqlite3", ""⟩ once.smap.empty fsNone
    ⟨"sqlite3", instPathOf "noop" "00000000"⟩ none false rfl

end Sqlitestdb
